import Mathlib

/-!
Verification of the configuration-resolution and pagination logic of the
drizzle-repositories code generator.

The development shallowly embeds the two load-bearing routines of the
repository: the configuration validator / default merger
(validateConfig, applyDefaults) and the pagination-window calculator
(findPaginated, present in two textually duplicated repository base
classes).  JavaScript runtime values that flow through the validator are
modelled by the inductive JSVal; JS numbers are modelled as rationals.
-/

namespace DrizzleRepositories

/-- A JavaScript runtime value, restricted to the shapes that can reach the
configuration validator: undefined, strings, numbers (modelled as rationals;
NaN and infinities are not modelled) and booleans. -/
inductive JSVal where
  | undefined : JSVal
  | str : String → JSVal
  | num : ℚ → JSVal
  | bool : Bool → JSVal
deriving DecidableEq, Repr

/-- JavaScript truthiness of a modelled value: undefined is falsy, a string
is truthy iff non-empty, a number is truthy iff non-zero, a boolean is
itself. -/
def JSVal.truthy : JSVal → Bool
  | .undefined => false
  | .str s => decide (s ≠ "")
  | .num q => decide (q ≠ 0)
  | .bool b => b

/-- The JS typeof string of a modelled value. -/
def JSVal.typeof : JSVal → String
  | .undefined => "undefined"
  | .str _ => "string"
  | .num _ => "number"
  | .bool _ => "boolean"

/-- The JS nullish-coalescing operator v ?? d on modelled values (null is
not modelled, so only undefined selects the default). -/
def JSVal.coalesce (v d : JSVal) : JSVal :=
  if v = .undefined then d else v

/-- JS ToNumber on the modelled value space; none models NaN.  String
to number coercion is modelled only for the empty string (no other string
reaches a numeric comparison in this codebase). -/
def JSVal.toNum : JSVal → Option ℚ
  | .undefined => none
  | .num q => some q
  | .bool b => some (if b then 1 else 0)
  | .str s => if s = "" then some 0 else none

/-- The JS greater-than comparison a > b on modelled values: two strings
compare lexicographically, otherwise both sides are coerced with ToNumber
and any NaN makes the comparison false. -/
def JSVal.gtJS (a b : JSVal) : Bool :=
  match a, b with
  | .str s₁, .str s₂ => decide (s₂ < s₁)
  | a, b =>
    match a.toNum, b.toNum with
    | some x, some y => decide (y < x)
    | _, _ => false

/-- The recurring validation guard typeof v !== number || v <= 0. -/
def JSVal.isNotPositiveNumber : JSVal → Bool
  | .num q => decide (q ≤ 0)
  | _ => true

/-- Kinds of configuration validation errors (types/config.ts). -/
inductive ErrorType where
  | required : ErrorType
  | invalid : ErrorType
  | conflict : ErrorType
  | path : ErrorType
  | range : ErrorType
deriving DecidableEq, Repr

/-- Kinds of configuration validation warnings (types/config.ts). -/
inductive WarningType where
  | deprecated : WarningType
  | performance : WarningType
  | compatibility : WarningType
  | convention : WarningType
deriving DecidableEq, Repr

/-- Payload carried in the currentValue slot of an error: either a plain
JS value (possibly a typeof string) or the defaultLimit/maxLimit pair
object built by the pagination conflict check. -/
inductive ErrValue where
  | js : JSVal → ErrValue
  | limitsPair : JSVal → JSVal → ErrValue
deriving DecidableEq, Repr

/-- A configuration validation error (ConfigValidationError). -/
structure ConfigValidationError where
  field : String
  type : ErrorType
  message : String
  currentValue : ErrValue
  expectedValue : String
  suggestion : String
deriving DecidableEq, Repr

/-- A configuration validation warning (ConfigValidationWarning). -/
structure ConfigValidationWarning where
  field : String
  type : WarningType
  message : String
  currentValue : JSVal
  recommendedValue : String
  context : String
deriving DecidableEq, Repr

/-- The optional pagination settings group of a candidate configuration.
Its two limits are validated at runtime, so they are modelled as raw JS
values. -/
structure PaginationSettings where
  defaultLimit : JSVal
  maxLimit : JSVal
deriving DecidableEq, Repr

/-- The optional naming settings group of a candidate configuration. -/
structure NamingSettings where
  baseRepositorySuffix : Option String
  repositorySuffix : Option String
  usePascalCase : Option Bool
deriving DecidableEq, Repr

/-- The optional import-path settings group of a candidate configuration. -/
structure ImportsSettings where
  drizzleOrmPath : Option String
  schemaImportPath : Option String
  additionalImports : Option (List String)
deriving DecidableEq, Repr

/-- The optional feature-flag settings group of a candidate configuration. -/
structure FeaturesSettings where
  relationships : Option Bool
  auditTrail : Option Bool
  validation : Option Bool
  caching : Option Bool
deriving DecidableEq, Repr

/-- The optional TypeScript settings group of a candidate configuration. -/
structure TypescriptSettings where
  strictNullChecks : Option Bool
  target : Option String
  moduleSystem : Option String
  generateDeclarations : Option Bool
deriving DecidableEq, Repr

/-- A (possibly partial, possibly ill-typed) candidate repository codegen
configuration.  The four required fields plus transactionTimeout are
runtime-checked by the validator, so they are modelled as raw JS values;
the remaining optional groups are only ever defaulted, so they keep their
TypeScript types wrapped in Option. -/
structure RepositoryCodegenConfig where
  dialect : JSVal
  schemaPath : JSVal
  outputPath : JSVal
  basePath : JSVal
  logging : Option Bool := none
  skipConcreteRepositories : Option Bool := none
  baseRepositoryClassName : Option String := none
  transactionTimeout : JSVal := .undefined
  pagination : Option PaginationSettings := none
  naming : Option NamingSettings := none
  imports : Option ImportsSettings := none
  features : Option FeaturesSettings := none
  typescript : Option TypescriptSettings := none
deriving DecidableEq, Repr

/-- Result of a validateConfig call (ConfigValidationResult). -/
structure ConfigValidationResult where
  isValid : Bool
  errors : List ConfigValidationError
  warnings : List ConfigValidationWarning
  resolvedConfig : Option RepositoryCodegenConfig
deriving DecidableEq, Repr

/-- Default pagination limits of DEFAULT_CONFIG. -/
structure DefaultPagination where
  defaultLimit : ℚ
  maxLimit : ℚ
deriving DecidableEq, Repr

/-- Default naming conventions of DEFAULT_CONFIG. -/
structure DefaultNaming where
  baseRepositorySuffix : String
  repositorySuffix : String
  usePascalCase : Bool
deriving DecidableEq, Repr

/-- Default feature flags of DEFAULT_CONFIG. -/
structure DefaultFeatures where
  relationships : Bool
  auditTrail : Bool
  validation : Bool
  caching : Bool
deriving DecidableEq, Repr

/-- Default TypeScript options of DEFAULT_CONFIG. -/
structure DefaultTypescript where
  strictNullChecks : Bool
  target : String
  moduleSystem : String
  generateDeclarations : Bool
deriving DecidableEq, Repr

/-- Default path settings of DEFAULT_CONFIG. -/
structure DefaultPaths where
  configFileName : String
  schemaGlob : String
  outputPath : String
  basePath : String
deriving DecidableEq, Repr

/-- The shape of the static default table (DefaultConfigValues). -/
structure DefaultConfigValues where
  transactionTimeout : ℚ
  pagination : DefaultPagination
  naming : DefaultNaming
  features : DefaultFeatures
  typescript : DefaultTypescript
  paths : DefaultPaths
deriving DecidableEq, Repr

/-- The static default configuration table DEFAULT_CONFIG from config.ts. -/
def DEFAULT_CONFIG : DefaultConfigValues where
  transactionTimeout := 30000
  pagination := { defaultLimit := 20, maxLimit := 100 }
  naming := { baseRepositorySuffix := "Repository", repositorySuffix := "Repository",
              usePascalCase := true }
  features := { relationships := false, auditTrail := false, validation := false,
                caching := false }
  typescript := { strictNullChecks := true, target := "ES2022", moduleSystem := "ESM",
                  generateDeclarations := true }
  paths := { configFileName := "repository.codegen.config.ts",
             schemaGlob := "./src/schema/*.ts",
             outputPath := "./src/repositories/generated",
             basePath := "./src/repositories/base" }

/-- The list of accepted dialect values used by the includes check. -/
def validDialects : List JSVal := [.str "pg", .str "mysql", .str "sqlite"]

/-- Errors pushed by the dialect block of validateConfig. -/
def dialectErrors (config : RepositoryCodegenConfig) : List ConfigValidationError :=
  if ¬config.dialect.truthy then
    [{ field := "dialect", type := .required,
       message := "Database dialect is required",
       currentValue := .js config.dialect,
       expectedValue := "pg | mysql | sqlite",
       suggestion := "Specify one of: pg, mysql, sqlite" }]
  else if config.dialect ∉ validDialects then
    [{ field := "dialect", type := .invalid,
       message := "Invalid database dialect",
       currentValue := .js config.dialect,
       expectedValue := "pg | mysql | sqlite",
       suggestion := "Use one of the supported dialects: pg, mysql, sqlite" }]
  else []

/-- Errors pushed by the schemaPath block of validateConfig. -/
def schemaPathErrors (config : RepositoryCodegenConfig) : List ConfigValidationError :=
  if ¬config.schemaPath.truthy then
    [{ field := "schemaPath", type := .required,
       message := "Schema path is required",
       currentValue := .js config.schemaPath,
       expectedValue := "string (glob pattern)",
       suggestion := "Provide a path to your Drizzle schema files (e.g., ./src/schema/*.ts)" }]
  else if config.schemaPath.typeof ≠ "string" then
    [{ field := "schemaPath", type := .invalid,
       message := "Schema path must be a string",
       currentValue := .js (.str config.schemaPath.typeof),
       expectedValue := "string",
       suggestion := "Provide a string path with optional glob patterns" }]
  else []

/-- Errors pushed by the outputPath block of validateConfig. -/
def outputPathErrors (config : RepositoryCodegenConfig) : List ConfigValidationError :=
  if ¬config.outputPath.truthy then
    [{ field := "outputPath", type := .required,
       message := "Output path is required",
       currentValue := .js config.outputPath,
       expectedValue := "string (directory path)",
       suggestion := "Specify where generated repositories should be saved" }]
  else if config.outputPath.typeof ≠ "string" then
    [{ field := "outputPath", type := .invalid,
       message := "Output path must be a string",
       currentValue := .js (.str config.outputPath.typeof),
       expectedValue := "string",
       suggestion := "Provide a valid directory path" }]
  else []

/-- Errors pushed by the basePath block of validateConfig. -/
def basePathErrors (config : RepositoryCodegenConfig) : List ConfigValidationError :=
  if ¬config.basePath.truthy then
    [{ field := "basePath", type := .required,
       message := "Base path is required",
       currentValue := .js config.basePath,
       expectedValue := "string (directory path)",
       suggestion := "Specify where base repository classes should be saved" }]
  else if config.basePath.typeof ≠ "string" then
    [{ field := "basePath", type := .invalid,
       message := "Base path must be a string",
       currentValue := .js (.str config.basePath.typeof),
       expectedValue := "string",
       suggestion := "Provide a valid directory path" }]
  else []

/-- The error pushed by the transactionTimeout block of validateConfig. -/
def transactionTimeoutErrors (config : RepositoryCodegenConfig) : List ConfigValidationError :=
  if config.transactionTimeout ≠ .undefined then
    if config.transactionTimeout.isNotPositiveNumber then
      [{ field := "transactionTimeout", type := .invalid,
         message := "Transaction timeout must be a positive number",
         currentValue := .js config.transactionTimeout,
         expectedValue := "number > 0",
         suggestion := "Use a timeout value in milliseconds (e.g., 30000 for 30 seconds)" }]
    else []
  else []

/-- The warning pushed when a valid transactionTimeout is below 1000. -/
def shortTimeoutWarning (q : ℚ) : ConfigValidationWarning where
  field := "transactionTimeout"
  type := .performance
  message := "Transaction timeout is very short"
  currentValue := .num q
  recommendedValue := "30000 or higher"
  context := "Short timeouts may cause legitimate operations to fail"

/-- The warning pushed when a valid transactionTimeout is above 300000. -/
def longTimeoutWarning (q : ℚ) : ConfigValidationWarning where
  field := "transactionTimeout"
  type := .performance
  message := "Transaction timeout is very long"
  currentValue := .num q
  recommendedValue := "30000 to 60000"
  context := "Long timeouts may hide performance issues"

/-- Warnings pushed by the transactionTimeout block of validateConfig: a
warning is only reached when the value is a positive number, i.e. when the
invalid branch of the same if chain was not taken. -/
def transactionTimeoutWarnings (config : RepositoryCodegenConfig) :
    List ConfigValidationWarning :=
  match config.transactionTimeout with
  | .num q =>
    if q ≤ 0 then []
    else if q < 1000 then [shortTimeoutWarning q]
    else if q > 300000 then [longTimeoutWarning q]
    else []
  | _ => []

/-- Errors pushed by the pagination block of validateConfig, in source
order: defaultLimit check, maxLimit check, then the conflict check. -/
def paginationErrors (config : RepositoryCodegenConfig) : List ConfigValidationError :=
  match config.pagination with
  | none => []
  | some p =>
    (if p.defaultLimit ≠ .undefined ∧ p.defaultLimit.isNotPositiveNumber then
      [{ field := "pagination.defaultLimit", type := .invalid,
         message := "Default limit must be a positive number",
         currentValue := .js p.defaultLimit,
         expectedValue := "number > 0",
         suggestion := "Use a reasonable default like 20 or 50" }]
     else []) ++
    (if p.maxLimit ≠ .undefined ∧ p.maxLimit.isNotPositiveNumber then
      [{ field := "pagination.maxLimit", type := .invalid,
         message := "Max limit must be a positive number",
         currentValue := .js p.maxLimit,
         expectedValue := "number > 0",
         suggestion := "Use a reasonable maximum like 100 or 1000" }]
     else []) ++
    (if p.defaultLimit ≠ .undefined ∧ p.maxLimit ≠ .undefined ∧ p.defaultLimit.gtJS p.maxLimit then
      [{ field := "pagination", type := .conflict,
         message := "Default limit cannot be greater than max limit",
         currentValue := .limitsPair p.defaultLimit p.maxLimit,
         expectedValue := "defaultLimit <= maxLimit",
         suggestion := "Ensure default limit is less than or equal to max limit" }]
     else [])

/-- The error pushed by the outputPath/basePath conflict block of
validateConfig. -/
def pathConflictErrors (config : RepositoryCodegenConfig) : List ConfigValidationError :=
  if config.outputPath.truthy ∧ config.basePath.truthy ∧
      config.outputPath = config.basePath then
    [{ field := "outputPath", type := .conflict,
       message := "Output path and base path cannot be the same",
       currentValue := .js config.outputPath,
       expectedValue := "Different path from basePath",
       suggestion := "Use separate directories for generated and base repositories" }]
  else []

/-- applyDefaults from config.ts: merges a configuration with the default
table field-by-field (nested groups are merged key-by-key), preserving any
caller-specified value and never touching the four required fields. -/
def applyDefaults (config : RepositoryCodegenConfig) : RepositoryCodegenConfig where
  dialect := config.dialect
  schemaPath := config.schemaPath
  outputPath := config.outputPath
  basePath := config.basePath
  logging := some (config.logging.getD true)
  skipConcreteRepositories := some (config.skipConcreteRepositories.getD false)
  baseRepositoryClassName := some (config.baseRepositoryClassName.getD "BaseRepository")
  transactionTimeout :=
    config.transactionTimeout.coalesce (.num DEFAULT_CONFIG.transactionTimeout)
  pagination := some
    { defaultLimit := ((config.pagination.map PaginationSettings.defaultLimit).getD
        .undefined).coalesce (.num DEFAULT_CONFIG.pagination.defaultLimit)
      maxLimit := ((config.pagination.map PaginationSettings.maxLimit).getD
        .undefined).coalesce (.num DEFAULT_CONFIG.pagination.maxLimit) }
  naming := some
    { baseRepositorySuffix := some ((config.naming.bind
        NamingSettings.baseRepositorySuffix).getD DEFAULT_CONFIG.naming.baseRepositorySuffix)
      repositorySuffix := some ((config.naming.bind
        NamingSettings.repositorySuffix).getD DEFAULT_CONFIG.naming.repositorySuffix)
      usePascalCase := some ((config.naming.bind
        NamingSettings.usePascalCase).getD DEFAULT_CONFIG.naming.usePascalCase) }
  imports := some
    { drizzleOrmPath := some ((config.imports.bind
        ImportsSettings.drizzleOrmPath).getD "drizzle-orm")
      schemaImportPath := some ((config.imports.bind
        ImportsSettings.schemaImportPath).getD "../schema")
      additionalImports := some ((config.imports.bind
        ImportsSettings.additionalImports).getD []) }
  features := some
    { relationships := some ((config.features.bind
        FeaturesSettings.relationships).getD DEFAULT_CONFIG.features.relationships)
      auditTrail := some ((config.features.bind
        FeaturesSettings.auditTrail).getD DEFAULT_CONFIG.features.auditTrail)
      validation := some ((config.features.bind
        FeaturesSettings.validation).getD DEFAULT_CONFIG.features.validation)
      caching := some ((config.features.bind
        FeaturesSettings.caching).getD DEFAULT_CONFIG.features.caching) }
  typescript := some
    { strictNullChecks := some ((config.typescript.bind
        TypescriptSettings.strictNullChecks).getD DEFAULT_CONFIG.typescript.strictNullChecks)
      target := some ((config.typescript.bind
        TypescriptSettings.target).getD DEFAULT_CONFIG.typescript.target)
      moduleSystem := some ((config.typescript.bind
        TypescriptSettings.moduleSystem).getD DEFAULT_CONFIG.typescript.moduleSystem)
      generateDeclarations := some ((config.typescript.bind
        TypescriptSettings.generateDeclarations).getD
          DEFAULT_CONFIG.typescript.generateDeclarations) }

/-- validateConfig from config.ts: runs every check block in source order,
collects their errors and warnings, and attaches the defaulted
configuration exactly when no error was produced. -/
def validateConfig (config : RepositoryCodegenConfig) : ConfigValidationResult :=
  let errors := dialectErrors config ++ schemaPathErrors config ++
    outputPathErrors config ++ basePathErrors config ++
    transactionTimeoutErrors config ++ paginationErrors config ++
    pathConflictErrors config
  let warnings := transactionTimeoutWarnings config
  let isValid := errors.isEmpty
  { isValid := isValid
    errors := errors
    warnings := warnings
    resolvedConfig := if isValid then some (applyDefaults config) else none }

/-- createMinimalConfig from config.ts. -/
def createMinimalConfig (dialect schemaPath outputPath basePath : String) :
    RepositoryCodegenConfig where
  dialect := .str dialect
  schemaPath := .str schemaPath
  outputPath := .str outputPath
  basePath := .str basePath

/-- createExampleConfig from config.ts. -/
def createExampleConfig (dialect : String) : RepositoryCodegenConfig :=
  applyDefaults
    { dialect := .str dialect
      schemaPath := .str "./src/schema/*.ts"
      outputPath := .str "./src/repositories/generated"
      basePath := .str "./src/repositories/base"
      logging := some true
      pagination := some { defaultLimit := .num 20, maxLimit := .num 100 }
      features := some { relationships := some false, auditTrail := some false,
                         validation := some false, caching := some false } }

/-- The resolved per-repository configuration held by both generations of
the repository base class (Required of the factory config: every field
defaulted in the constructor). -/
structure RepositoryInstanceConfig where
  transactionTimeout : ℚ
  defaultLimit : ℚ
  maxLimit : ℚ
  softDelete : Bool
deriving DecidableEq, Repr

/-- The pagination metadata block of a PaginatedResult. -/
structure PaginationMeta where
  page : ℤ
  limit : ℚ
  total : ℚ
  totalPages : ℤ
  hasNext : Bool
  hasPrev : Bool
deriving DecidableEq, Repr

/-- A paginated query result: the fetched page of rows plus metadata. -/
structure PaginatedResult (α : Type) where
  data : List α
  pagination : PaginationMeta
deriving DecidableEq, Repr

namespace BaseRepository

/-- findPaginated of the first BaseRepository generation.  The underlying
findMany call is modelled as a function of the validated limit and offset
(the where filter and transaction are fixed by the call and absorbed into
it), and the underlying count call as its numeric result. -/
def findPaginated {α : Type} (config : RepositoryInstanceConfig)
    (findMany : ℚ → ℚ → List α) (count : ℚ)
    (page : Option ℚ) (limit : Option ℚ) : PaginatedResult α :=
  let page := page.getD 1
  let limit := limit.getD config.defaultLimit
  let validatedPage : ℤ := max 1 ⌊page⌋
  let validatedLimit : ℚ := min config.maxLimit ((max 1 ⌊limit⌋ : ℤ) : ℚ)
  let offset : ℚ := ((validatedPage : ℚ) - 1) * validatedLimit
  let data := findMany validatedLimit offset
  let total := count
  let totalPages : ℤ := ⌈total / validatedLimit⌉
  { data := data
    pagination :=
      { page := validatedPage
        limit := validatedLimit
        total := total
        totalPages := totalPages
        hasNext := decide (validatedPage < totalPages)
        hasPrev := decide (1 < validatedPage) } }

end BaseRepository

namespace SQLBaseRepository

/-- findPaginated of the second (SQL where-clause) BaseRepository
generation: identical arithmetic, with page and limit drawn from an
optional options object. -/
def findPaginated {α : Type} (config : RepositoryInstanceConfig)
    (findMany : ℚ → ℚ → List α) (count : ℚ)
    (optionsPage : Option ℚ) (optionsLimit : Option ℚ) : PaginatedResult α :=
  let validatedPage : ℤ := max 1 ⌊optionsPage.getD 1⌋
  let validatedLimit : ℚ :=
    min config.maxLimit ((max 1 ⌊optionsLimit.getD config.defaultLimit⌋ : ℤ) : ℚ)
  let offset : ℚ := ((validatedPage : ℚ) - 1) * validatedLimit
  let data := findMany validatedLimit offset
  let total := count
  let totalPages : ℤ := ⌈total / validatedLimit⌉
  { data := data
    pagination :=
      { page := validatedPage
        limit := validatedLimit
        total := total
        totalPages := totalPages
        hasNext := decide (validatedPage < totalPages)
        hasPrev := decide (1 < validatedPage) } }

end SQLBaseRepository

/-- The counterpart of the constructor defaulting in both base repository
classes: config fields fall back to 30000 / 20 / 100 / false. -/
def makeRepositoryInstanceConfig (transactionTimeout defaultLimit maxLimit : Option ℚ)
    (softDelete : Option Bool) : RepositoryInstanceConfig where
  transactionTimeout := transactionTimeout.getD 30000
  defaultLimit := defaultLimit.getD 20
  maxLimit := maxLimit.getD 100
  softDelete := softDelete.getD false

/-- Observation: number of validation errors on field f with type t. -/
def errorCount (r : ConfigValidationResult) (f : String) (t : ErrorType) : ℕ :=
  r.errors.countP (fun e => decide (e.field = f ∧ e.type = t))

/-- Observation: number of validation errors on field f, of any type. -/
def fieldErrorCount (r : ConfigValidationResult) (f : String) : ℕ :=
  r.errors.countP (fun e => decide (e.field = f))

/-- Observation: the field/type shapes of the error list, in order. -/
def errorShapes (r : ConfigValidationResult) : List (String × ErrorType) :=
  r.errors.map (fun e => (e.field, e.type))

theorem validateConfig_errors_eq (c : RepositoryCodegenConfig) :
    (validateConfig c).errors = dialectErrors c ++ schemaPathErrors c ++
      outputPathErrors c ++ basePathErrors c ++ transactionTimeoutErrors c ++
      paginationErrors c ++ pathConflictErrors c := rfl

theorem validateConfig_warnings_eq (c : RepositoryCodegenConfig) :
    (validateConfig c).warnings = transactionTimeoutWarnings c := rfl

theorem mem_dialectErrors_field {c : RepositoryCodegenConfig}
    {e : ConfigValidationError} (h : e ∈ dialectErrors c) : e.field = "dialect" := by
  unfold dialectErrors at h
  split at h <;> simp_all

theorem mem_schemaPathErrors_field {c : RepositoryCodegenConfig}
    {e : ConfigValidationError} (h : e ∈ schemaPathErrors c) : e.field = "schemaPath" := by
  unfold schemaPathErrors at h
  split at h <;> simp_all

theorem mem_outputPathErrors_field {c : RepositoryCodegenConfig}
    {e : ConfigValidationError} (h : e ∈ outputPathErrors c) : e.field = "outputPath" := by
  unfold outputPathErrors at h
  split at h <;> simp_all

theorem mem_basePathErrors_field {c : RepositoryCodegenConfig}
    {e : ConfigValidationError} (h : e ∈ basePathErrors c) : e.field = "basePath" := by
  unfold basePathErrors at h
  split at h <;> simp_all

theorem mem_transactionTimeoutErrors_field {c : RepositoryCodegenConfig}
    {e : ConfigValidationError} (h : e ∈ transactionTimeoutErrors c) :
    e.field = "transactionTimeout" ∧ e.type = .invalid := by
  unfold transactionTimeoutErrors at h
  split at h
  · split at h <;> simp_all
  · simp_all

theorem mem_paginationErrors_field {c : RepositoryCodegenConfig}
    {e : ConfigValidationError} (h : e ∈ paginationErrors c) :
    e.field = "pagination.defaultLimit" ∨ e.field = "pagination.maxLimit" ∨
      e.field = "pagination" := by
  unfold paginationErrors at h
  split at h
  · simp_all
  · simp only [List.mem_append] at h
    rcases h with (h | h) | h <;> split at h <;> simp_all

theorem mem_pathConflictErrors_field {c : RepositoryCodegenConfig}
    {e : ConfigValidationError} (h : e ∈ pathConflictErrors c) :
    e.field = "outputPath" ∧ e.type = .conflict := by
  unfold pathConflictErrors at h
  split at h <;> simp_all

theorem countP_eq_zero_of_field_ne (l : List ConfigValidationError) (f : String)
    (t : ErrorType) (h : ∀ e ∈ l, e.field ≠ f) :
    l.countP (fun e => decide (e.field = f ∧ e.type = t)) = 0 := by
  rw [List.countP_eq_zero]
  intro e he
  simp only [decide_eq_true_eq, not_and]
  intro hf
  exact absurd hf (h e he)

theorem countP_field_eq_zero_of_field_ne (l : List ConfigValidationError) (f : String)
    (h : ∀ e ∈ l, e.field ≠ f) :
    l.countP (fun e => decide (e.field = f)) = 0 := by
  rw [List.countP_eq_zero]
  intro e he
  simpa using h e he

theorem countP_dialectErrors_required (c : RepositoryCodegenConfig) :
    (dialectErrors c).countP
        (fun e => decide (e.field = "dialect" ∧ e.type = .required)) =
      if c.dialect.truthy then 0 else 1 := by
  unfold dialectErrors
  by_cases h : c.dialect.truthy = true
  · by_cases hm : c.dialect ∈ validDialects <;> simp [h, hm]
  · simp [eq_false_of_ne_true h]

theorem countP_dialectErrors_invalid (c : RepositoryCodegenConfig) :
    (dialectErrors c).countP
        (fun e => decide (e.field = "dialect" ∧ e.type = .invalid)) =
      if c.dialect.truthy then (if c.dialect ∈ validDialects then 0 else 1) else 0 := by
  unfold dialectErrors
  by_cases h : c.dialect.truthy = true
  · by_cases hm : c.dialect ∈ validDialects <;> simp [h, hm]
  · simp [eq_false_of_ne_true h]

theorem countP_dialectErrors_field (c : RepositoryCodegenConfig) :
    (dialectErrors c).countP (fun e => decide (e.field = "dialect")) =
      if c.dialect.truthy then (if c.dialect ∈ validDialects then 0 else 1) else 1 := by
  unfold dialectErrors
  by_cases h : c.dialect.truthy = true
  · by_cases hm : c.dialect ∈ validDialects <;> simp [h, hm]
  · simp [eq_false_of_ne_true h]

theorem countP_schemaPathErrors_required (c : RepositoryCodegenConfig) :
    (schemaPathErrors c).countP
        (fun e => decide (e.field = "schemaPath" ∧ e.type = .required)) =
      if c.schemaPath.truthy then 0 else 1 := by
  unfold schemaPathErrors
  by_cases h : c.schemaPath.truthy = true
  · by_cases hm : c.schemaPath.typeof = "string" <;> simp [h, hm]
  · simp [eq_false_of_ne_true h]

theorem countP_schemaPathErrors_invalid (c : RepositoryCodegenConfig) :
    (schemaPathErrors c).countP
        (fun e => decide (e.field = "schemaPath" ∧ e.type = .invalid)) =
      if c.schemaPath.truthy then (if c.schemaPath.typeof = "string" then 0 else 1)
      else 0 := by
  unfold schemaPathErrors
  by_cases h : c.schemaPath.truthy = true
  · by_cases hm : c.schemaPath.typeof = "string" <;> simp [h, hm]
  · simp [eq_false_of_ne_true h]

theorem countP_outputPathErrors_required (c : RepositoryCodegenConfig) :
    (outputPathErrors c).countP
        (fun e => decide (e.field = "outputPath" ∧ e.type = .required)) =
      if c.outputPath.truthy then 0 else 1 := by
  unfold outputPathErrors
  by_cases h : c.outputPath.truthy = true
  · by_cases hm : c.outputPath.typeof = "string" <;> simp [h, hm]
  · simp [eq_false_of_ne_true h]

theorem countP_outputPathErrors_invalid (c : RepositoryCodegenConfig) :
    (outputPathErrors c).countP
        (fun e => decide (e.field = "outputPath" ∧ e.type = .invalid)) =
      if c.outputPath.truthy then (if c.outputPath.typeof = "string" then 0 else 1)
      else 0 := by
  unfold outputPathErrors
  by_cases h : c.outputPath.truthy = true
  · by_cases hm : c.outputPath.typeof = "string" <;> simp [h, hm]
  · simp [eq_false_of_ne_true h]

theorem countP_basePathErrors_required (c : RepositoryCodegenConfig) :
    (basePathErrors c).countP
        (fun e => decide (e.field = "basePath" ∧ e.type = .required)) =
      if c.basePath.truthy then 0 else 1 := by
  unfold basePathErrors
  by_cases h : c.basePath.truthy = true
  · by_cases hm : c.basePath.typeof = "string" <;> simp [h, hm]
  · simp [eq_false_of_ne_true h]

theorem countP_basePathErrors_invalid (c : RepositoryCodegenConfig) :
    (basePathErrors c).countP
        (fun e => decide (e.field = "basePath" ∧ e.type = .invalid)) =
      if c.basePath.truthy then (if c.basePath.typeof = "string" then 0 else 1)
      else 0 := by
  unfold basePathErrors
  by_cases h : c.basePath.truthy = true
  · by_cases hm : c.basePath.typeof = "string" <;> simp [h, hm]
  · simp [eq_false_of_ne_true h]

theorem countP_transactionTimeoutErrors_invalid (c : RepositoryCodegenConfig) :
    (transactionTimeoutErrors c).countP
        (fun e => decide (e.field = "transactionTimeout" ∧ e.type = .invalid)) =
      if c.transactionTimeout = .undefined then 0
      else if c.transactionTimeout.isNotPositiveNumber then 1 else 0 := by
  unfold transactionTimeoutErrors
  by_cases h : c.transactionTimeout = JSVal.undefined
  · simp [h]
  · by_cases hp : c.transactionTimeout.isNotPositiveNumber = true <;> simp [h, hp]

theorem countP_pathConflictErrors_conflict (c : RepositoryCodegenConfig) :
    (pathConflictErrors c).countP
        (fun e => decide (e.field = "outputPath" ∧ e.type = .conflict)) =
      if c.outputPath.truthy ∧ c.basePath.truthy ∧ c.outputPath = c.basePath
      then 1 else 0 := by
  unfold pathConflictErrors
  by_cases h : c.outputPath.truthy ∧ c.basePath.truthy ∧ c.outputPath = c.basePath <;> simp [h]

theorem errorCount_dialect (c : RepositoryCodegenConfig) (t : ErrorType) :
    errorCount (validateConfig c) "dialect" t =
      (dialectErrors c).countP
        (fun e => decide (e.field = "dialect" ∧ e.type = t)) := by
  have h₂ := countP_eq_zero_of_field_ne (schemaPathErrors c) "dialect" t
    (fun e he => by simp [mem_schemaPathErrors_field he])
  have h₃ := countP_eq_zero_of_field_ne (outputPathErrors c) "dialect" t
    (fun e he => by simp [mem_outputPathErrors_field he])
  have h₄ := countP_eq_zero_of_field_ne (basePathErrors c) "dialect" t
    (fun e he => by simp [mem_basePathErrors_field he])
  have h₅ := countP_eq_zero_of_field_ne (transactionTimeoutErrors c) "dialect" t
    (fun e he => by simp [(mem_transactionTimeoutErrors_field he).1])
  have h₆ := countP_eq_zero_of_field_ne (paginationErrors c) "dialect" t
    (fun e he => by rcases mem_paginationErrors_field he with h | h | h <;> simp [h])
  have h₇ := countP_eq_zero_of_field_ne (pathConflictErrors c) "dialect" t
    (fun e he => by simp [(mem_pathConflictErrors_field he).1])
  simp only [errorCount, validateConfig_errors_eq, List.countP_append, h₂, h₃, h₄, h₅, h₆, h₇]
  omega

theorem fieldErrorCount_dialect (c : RepositoryCodegenConfig) :
    fieldErrorCount (validateConfig c) "dialect" =
      (dialectErrors c).countP (fun e => decide (e.field = "dialect")) := by
  have h₂ := countP_field_eq_zero_of_field_ne (schemaPathErrors c) "dialect"
    (fun e he => by simp [mem_schemaPathErrors_field he])
  have h₃ := countP_field_eq_zero_of_field_ne (outputPathErrors c) "dialect"
    (fun e he => by simp [mem_outputPathErrors_field he])
  have h₄ := countP_field_eq_zero_of_field_ne (basePathErrors c) "dialect"
    (fun e he => by simp [mem_basePathErrors_field he])
  have h₅ := countP_field_eq_zero_of_field_ne (transactionTimeoutErrors c) "dialect"
    (fun e he => by simp [(mem_transactionTimeoutErrors_field he).1])
  have h₆ := countP_field_eq_zero_of_field_ne (paginationErrors c) "dialect"
    (fun e he => by rcases mem_paginationErrors_field he with h | h | h <;> simp [h])
  have h₇ := countP_field_eq_zero_of_field_ne (pathConflictErrors c) "dialect"
    (fun e he => by simp [(mem_pathConflictErrors_field he).1])
  simp only [fieldErrorCount, validateConfig_errors_eq, List.countP_append, h₂, h₃, h₄, h₅, h₆,
    h₇]
  omega

theorem errorCount_schemaPath (c : RepositoryCodegenConfig) (t : ErrorType) :
    errorCount (validateConfig c) "schemaPath" t =
      (schemaPathErrors c).countP
        (fun e => decide (e.field = "schemaPath" ∧ e.type = t)) := by
  have h₁ := countP_eq_zero_of_field_ne (dialectErrors c) "schemaPath" t
    (fun e he => by simp [mem_dialectErrors_field he])
  have h₃ := countP_eq_zero_of_field_ne (outputPathErrors c) "schemaPath" t
    (fun e he => by simp [mem_outputPathErrors_field he])
  have h₄ := countP_eq_zero_of_field_ne (basePathErrors c) "schemaPath" t
    (fun e he => by simp [mem_basePathErrors_field he])
  have h₅ := countP_eq_zero_of_field_ne (transactionTimeoutErrors c) "schemaPath" t
    (fun e he => by simp [(mem_transactionTimeoutErrors_field he).1])
  have h₆ := countP_eq_zero_of_field_ne (paginationErrors c) "schemaPath" t
    (fun e he => by rcases mem_paginationErrors_field he with h | h | h <;> simp [h])
  have h₇ := countP_eq_zero_of_field_ne (pathConflictErrors c) "schemaPath" t
    (fun e he => by simp [(mem_pathConflictErrors_field he).1])
  simp only [errorCount, validateConfig_errors_eq, List.countP_append, h₁, h₃, h₄, h₅, h₆, h₇]
  omega

theorem errorCount_outputPath (c : RepositoryCodegenConfig) (t : ErrorType) :
    errorCount (validateConfig c) "outputPath" t =
      (outputPathErrors c).countP
          (fun e => decide (e.field = "outputPath" ∧ e.type = t)) +
        (pathConflictErrors c).countP
          (fun e => decide (e.field = "outputPath" ∧ e.type = t)) := by
  have h₁ := countP_eq_zero_of_field_ne (dialectErrors c) "outputPath" t
    (fun e he => by simp [mem_dialectErrors_field he])
  have h₂ := countP_eq_zero_of_field_ne (schemaPathErrors c) "outputPath" t
    (fun e he => by simp [mem_schemaPathErrors_field he])
  have h₄ := countP_eq_zero_of_field_ne (basePathErrors c) "outputPath" t
    (fun e he => by simp [mem_basePathErrors_field he])
  have h₅ := countP_eq_zero_of_field_ne (transactionTimeoutErrors c) "outputPath" t
    (fun e he => by simp [(mem_transactionTimeoutErrors_field he).1])
  have h₆ := countP_eq_zero_of_field_ne (paginationErrors c) "outputPath" t
    (fun e he => by rcases mem_paginationErrors_field he with h | h | h <;> simp [h])
  simp only [errorCount, validateConfig_errors_eq, List.countP_append, h₁, h₂, h₄, h₅, h₆]
  omega

theorem errorCount_basePath (c : RepositoryCodegenConfig) (t : ErrorType) :
    errorCount (validateConfig c) "basePath" t =
      (basePathErrors c).countP
        (fun e => decide (e.field = "basePath" ∧ e.type = t)) := by
  have h₁ := countP_eq_zero_of_field_ne (dialectErrors c) "basePath" t
    (fun e he => by simp [mem_dialectErrors_field he])
  have h₂ := countP_eq_zero_of_field_ne (schemaPathErrors c) "basePath" t
    (fun e he => by simp [mem_schemaPathErrors_field he])
  have h₃ := countP_eq_zero_of_field_ne (outputPathErrors c) "basePath" t
    (fun e he => by simp [mem_outputPathErrors_field he])
  have h₅ := countP_eq_zero_of_field_ne (transactionTimeoutErrors c) "basePath" t
    (fun e he => by simp [(mem_transactionTimeoutErrors_field he).1])
  have h₆ := countP_eq_zero_of_field_ne (paginationErrors c) "basePath" t
    (fun e he => by rcases mem_paginationErrors_field he with h | h | h <;> simp [h])
  have h₇ := countP_eq_zero_of_field_ne (pathConflictErrors c) "basePath" t
    (fun e he => by simp [(mem_pathConflictErrors_field he).1])
  simp only [errorCount, validateConfig_errors_eq, List.countP_append, h₁, h₂, h₃, h₅, h₆, h₇]
  omega

theorem errorCount_transactionTimeout (c : RepositoryCodegenConfig) (t : ErrorType) :
    errorCount (validateConfig c) "transactionTimeout" t =
      (transactionTimeoutErrors c).countP
        (fun e => decide (e.field = "transactionTimeout" ∧ e.type = t)) := by
  have h₁ := countP_eq_zero_of_field_ne (dialectErrors c) "transactionTimeout" t
    (fun e he => by simp [mem_dialectErrors_field he])
  have h₂ := countP_eq_zero_of_field_ne (schemaPathErrors c) "transactionTimeout" t
    (fun e he => by simp [mem_schemaPathErrors_field he])
  have h₃ := countP_eq_zero_of_field_ne (outputPathErrors c) "transactionTimeout" t
    (fun e he => by simp [mem_outputPathErrors_field he])
  have h₄ := countP_eq_zero_of_field_ne (basePathErrors c) "transactionTimeout" t
    (fun e he => by simp [mem_basePathErrors_field he])
  have h₆ := countP_eq_zero_of_field_ne (paginationErrors c) "transactionTimeout" t
    (fun e he => by rcases mem_paginationErrors_field he with h | h | h <;> simp [h])
  have h₇ := countP_eq_zero_of_field_ne (pathConflictErrors c) "transactionTimeout" t
    (fun e he => by simp [(mem_pathConflictErrors_field he).1])
  simp only [errorCount, validateConfig_errors_eq, List.countP_append, h₁, h₂, h₃, h₄, h₆, h₇]
  omega

theorem countP_pathConflictErrors_of_ne_conflict (c : RepositoryCodegenConfig)
    (t : ErrorType) (h : t ≠ .conflict) :
    (pathConflictErrors c).countP
      (fun e => decide (e.field = "outputPath" ∧ e.type = t)) = 0 := by
  unfold pathConflictErrors
  split <;> simp [Ne.symm h]

theorem validateConfig_isValid_def (c : RepositoryCodegenConfig) :
    (validateConfig c).isValid = (validateConfig c).errors.isEmpty := rfl

theorem validateConfig_resolvedConfig_def (c : RepositoryCodegenConfig) :
    (validateConfig c).resolvedConfig =
      if (validateConfig c).errors.isEmpty then some (applyDefaults c) else none := rfl

theorem errors_ne_nil_of_count_one {r : ConfigValidationResult} {f : String}
    {t : ErrorType} (h : errorCount r f t = 1) : r.errors ≠ [] := by
  intro hnil
  unfold errorCount at h
  rw [hnil] at h
  simp at h

/-- The minimal valid pg candidate from the validateConfig doc example. -/
def examplePgCandidate : RepositoryCodegenConfig where
  dialect := .str "pg"
  schemaPath := .str "./src/schema/*.ts"
  outputPath := .str "./src/repositories/generated"
  basePath := .str "./src/repositories/base"

/-- An otherwise-valid candidate whose dialect is an unsupported value. -/
def oracleDialectCandidate : RepositoryCodegenConfig where
  dialect := .str "oracle"
  schemaPath := .str "./s"
  outputPath := .str "./out"
  basePath := .str "./base"

/-- The spec scenario: all four required fields missing. -/
def emptyCandidate : RepositoryCodegenConfig where
  dialect := .undefined
  schemaPath := .undefined
  outputPath := .undefined
  basePath := .undefined

/-- C1: validateConfig is valid iff its error list is empty (warnings play
no role), and it carries the applyDefaults of the candidate exactly when
valid, no resolved configuration otherwise. -/
theorem validateConfig_validity (c : RepositoryCodegenConfig) :
    ((validateConfig c).isValid = true ↔ (validateConfig c).errors = [])
  ∧ ((validateConfig c).isValid = true →
      (validateConfig c).resolvedConfig = some (applyDefaults c))
  ∧ ((validateConfig c).isValid = false →
      (validateConfig c).resolvedConfig = none) := by
  refine ⟨?_, ?_, ?_⟩
  · rw [validateConfig_isValid_def]
    exact List.isEmpty_iff
  · intro h
    rw [validateConfig_isValid_def] at h
    rw [validateConfig_resolvedConfig_def, h]
    rfl
  · intro h
    rw [validateConfig_isValid_def] at h
    rw [validateConfig_resolvedConfig_def, h]
    rfl

theorem validateConfig_validity_witness :
    (validateConfig examplePgCandidate).isValid = true ∧
      (validateConfig examplePgCandidate).resolvedConfig =
        some (applyDefaults examplePgCandidate) :=
  ⟨by decide, (validateConfig_validity examplePgCandidate).2.1 (by decide)⟩

/-- C2: a candidate missing any of the four required fields is invalid,
carries no resolved configuration, and the validation result holds exactly
one required error per missing field (and none for a present field). -/
theorem validateConfig_missing_required (c : RepositoryCodegenConfig)
    (h : c.dialect.truthy = false ∨ c.schemaPath.truthy = false ∨
      c.outputPath.truthy = false ∨ c.basePath.truthy = false) :
    (validateConfig c).isValid = false
  ∧ (validateConfig c).resolvedConfig = none
  ∧ errorCount (validateConfig c) "dialect" .required =
      (if c.dialect.truthy then 0 else 1)
  ∧ errorCount (validateConfig c) "schemaPath" .required =
      (if c.schemaPath.truthy then 0 else 1)
  ∧ errorCount (validateConfig c) "outputPath" .required =
      (if c.outputPath.truthy then 0 else 1)
  ∧ errorCount (validateConfig c) "basePath" .required =
      (if c.basePath.truthy then 0 else 1) := by
  have hd := (errorCount_dialect c .required).trans (countP_dialectErrors_required c)
  have hs := (errorCount_schemaPath c .required).trans (countP_schemaPathErrors_required c)
  have ho : errorCount (validateConfig c) "outputPath" .required =
      if c.outputPath.truthy then 0 else 1 := by
    rw [errorCount_outputPath, countP_outputPathErrors_required,
      countP_pathConflictErrors_of_ne_conflict c .required (by simp)]
    omega
  have hb := (errorCount_basePath c .required).trans (countP_basePathErrors_required c)
  have hne : (validateConfig c).errors ≠ [] := by
    rcases h with h | h | h | h
    · exact errors_ne_nil_of_count_one (by rw [hd, h]; rfl)
    · exact errors_ne_nil_of_count_one (by rw [hs, h]; rfl)
    · exact errors_ne_nil_of_count_one (by rw [ho, h]; rfl)
    · exact errors_ne_nil_of_count_one (by rw [hb, h]; rfl)
  have hinv : (validateConfig c).isValid = false := by
    rw [validateConfig_isValid_def]
    simpa using hne
  refine ⟨hinv, ?_, hd, hs, ho, hb⟩
  exact (validateConfig_validity c).2.2 hinv

theorem validateConfig_missing_required_witness :
    (emptyCandidate.dialect.truthy = false ∨ emptyCandidate.schemaPath.truthy = false ∨
      emptyCandidate.outputPath.truthy = false ∨ emptyCandidate.basePath.truthy = false)
  ∧ (validateConfig emptyCandidate).isValid = false
  ∧ errorCount (validateConfig emptyCandidate) "dialect" .required = 1 :=
  ⟨by decide,
   (validateConfig_missing_required emptyCandidate (by decide)).1,
   by
    have h := (validateConfig_missing_required emptyCandidate (by decide)).2.2.1
    simpa using h⟩

/-- C7: a present dialect outside the supported set yields exactly one
invalid error on dialect, and no other error on that field. -/
theorem validateConfig_invalid_dialect (c : RepositoryCodegenConfig)
    (h₁ : c.dialect.truthy = true) (h₂ : c.dialect ∉ validDialects) :
    errorCount (validateConfig c) "dialect" .invalid = 1
  ∧ fieldErrorCount (validateConfig c) "dialect" = 1 := by
  constructor
  · rw [errorCount_dialect, countP_dialectErrors_invalid]
    simp [h₁, h₂]
  · rw [fieldErrorCount_dialect, countP_dialectErrors_field]
    simp [h₁, h₂]

theorem validateConfig_invalid_dialect_witness :
    oracleDialectCandidate.dialect.truthy = true
  ∧ oracleDialectCandidate.dialect ∉ validDialects
  ∧ errorCount (validateConfig oracleDialectCandidate) "dialect" .invalid = 1 :=
  ⟨by decide, by decide,
   (validateConfig_invalid_dialect oracleDialectCandidate (by decide) (by decide)).1⟩

/-- The spec scenario: dialect missing while outputPath equals basePath. -/
def missingDialectCandidate : RepositoryCodegenConfig where
  dialect := .undefined
  schemaPath := .str "./s"
  outputPath := .str "./out"
  basePath := .str "./out"

/-- The spec scenario: valid candidate with transactionTimeout 500. -/
def shortTimeoutCandidate : RepositoryCodegenConfig where
  dialect := .str "pg"
  schemaPath := .str "./s"
  outputPath := .str "./out"
  basePath := .str "./base"
  transactionTimeout := .num 500

/-- C6: the checks of validateConfig are independent: the error list is
always the concatenation of every check block's output, changing the
dialect never changes the errors reported on other fields, and the
missing-dialect/equal-paths scenario yields exactly the required error on
dialect followed by the conflict error on outputPath. -/
theorem validateConfig_checks_independent :
    (∀ c : RepositoryCodegenConfig, (validateConfig c).errors =
      dialectErrors c ++ schemaPathErrors c ++ outputPathErrors c ++
        basePathErrors c ++ transactionTimeoutErrors c ++ paginationErrors c ++
        pathConflictErrors c)
  ∧ (∀ (c : RepositoryCodegenConfig) (v₁ v₂ : JSVal),
      (validateConfig { c with dialect := v₁ }).errors.filter
          (fun e => decide (e.field ≠ "dialect")) =
        (validateConfig { c with dialect := v₂ }).errors.filter
          (fun e => decide (e.field ≠ "dialect")))
  ∧ (validateConfig missingDialectCandidate).isValid = false
  ∧ errorShapes (validateConfig missingDialectCandidate) =
      [("dialect", .required), ("outputPath", .conflict)] := by
  have hdial : ∀ c : RepositoryCodegenConfig,
      (dialectErrors c).filter (fun e => decide (e.field ≠ "dialect")) = [] := by
    intro c
    rw [List.filter_eq_nil_iff]
    intro e he
    simp [mem_dialectErrors_field he]
  refine ⟨fun c => rfl, ?_, by decide, by decide⟩
  intro c v₁ v₂
  rw [validateConfig_errors_eq, validateConfig_errors_eq]
  simp only [List.filter_append, hdial]
  rfl

theorem dialectErrors_congr (c₁ c₂ : RepositoryCodegenConfig)
    (h : c₁.dialect = c₂.dialect) : dialectErrors c₁ = dialectErrors c₂ := by
  unfold dialectErrors
  rw [h]

theorem schemaPathErrors_congr (c₁ c₂ : RepositoryCodegenConfig)
    (h : c₁.schemaPath = c₂.schemaPath) : schemaPathErrors c₁ = schemaPathErrors c₂ := by
  unfold schemaPathErrors
  rw [h]

theorem outputPathErrors_congr (c₁ c₂ : RepositoryCodegenConfig)
    (h : c₁.outputPath = c₂.outputPath) : outputPathErrors c₁ = outputPathErrors c₂ := by
  unfold outputPathErrors
  rw [h]

theorem basePathErrors_congr (c₁ c₂ : RepositoryCodegenConfig)
    (h : c₁.basePath = c₂.basePath) : basePathErrors c₁ = basePathErrors c₂ := by
  unfold basePathErrors
  rw [h]

theorem transactionTimeoutErrors_congr (c₁ c₂ : RepositoryCodegenConfig)
    (h : c₁.transactionTimeout = c₂.transactionTimeout) :
    transactionTimeoutErrors c₁ = transactionTimeoutErrors c₂ := by
  unfold transactionTimeoutErrors
  rw [h]

theorem paginationErrors_congr (c₁ c₂ : RepositoryCodegenConfig)
    (h : c₁.pagination = c₂.pagination) : paginationErrors c₁ = paginationErrors c₂ := by
  unfold paginationErrors
  rw [h]

theorem pathConflictErrors_congr (c₁ c₂ : RepositoryCodegenConfig)
    (h₁ : c₁.outputPath = c₂.outputPath) (h₂ : c₁.basePath = c₂.basePath) :
    pathConflictErrors c₁ = pathConflictErrors c₂ := by
  unfold pathConflictErrors
  rw [h₁, h₂]

/-- C9: a required field holding the empty string is falsy, hence treated
exactly like an absent field: one required error, no invalid error, and
the same error shapes as the candidate with the field removed. -/
theorem validateConfig_emptyString_required (c : RepositoryCodegenConfig) :
    (errorShapes (validateConfig { c with dialect := .str "" }) =
        errorShapes (validateConfig { c with dialect := .undefined })
      ∧ errorCount (validateConfig { c with dialect := .str "" }) "dialect" .required = 1
      ∧ errorCount (validateConfig { c with dialect := .str "" }) "dialect" .invalid = 0)
  ∧ (errorShapes (validateConfig { c with schemaPath := .str "" }) =
        errorShapes (validateConfig { c with schemaPath := .undefined })
      ∧ errorCount (validateConfig { c with schemaPath := .str "" })
          "schemaPath" .required = 1
      ∧ errorCount (validateConfig { c with schemaPath := .str "" })
          "schemaPath" .invalid = 0)
  ∧ (errorShapes (validateConfig { c with outputPath := .str "" }) =
        errorShapes (validateConfig { c with outputPath := .undefined })
      ∧ errorCount (validateConfig { c with outputPath := .str "" })
          "outputPath" .required = 1
      ∧ errorCount (validateConfig { c with outputPath := .str "" })
          "outputPath" .invalid = 0)
  ∧ (errorShapes (validateConfig { c with basePath := .str "" }) =
        errorShapes (validateConfig { c with basePath := .undefined })
      ∧ errorCount (validateConfig { c with basePath := .str "" })
          "basePath" .required = 1
      ∧ errorCount (validateConfig { c with basePath := .str "" })
          "basePath" .invalid = 0) := by
  refine ⟨⟨?_, ?_, ?_⟩, ⟨?_, ?_, ?_⟩, ⟨?_, ?_, ?_⟩, ⟨?_, ?_, ?_⟩⟩
  · rfl
  · rw [errorCount_dialect, countP_dialectErrors_required]
    rfl
  · rw [errorCount_dialect, countP_dialectErrors_invalid]
    rfl
  · rw [errorShapes, errorShapes, validateConfig_errors_eq, validateConfig_errors_eq,
      dialectErrors_congr { c with schemaPath := .str "" } { c with schemaPath := .undefined } rfl,
      outputPathErrors_congr { c with schemaPath := .str "" } { c with schemaPath := .undefined } rfl,
      basePathErrors_congr { c with schemaPath := .str "" } { c with schemaPath := .undefined } rfl,
      transactionTimeoutErrors_congr { c with schemaPath := .str "" }
        { c with schemaPath := .undefined } rfl,
      paginationErrors_congr { c with schemaPath := .str "" } { c with schemaPath := .undefined } rfl,
      pathConflictErrors_congr { c with schemaPath := .str "" } { c with schemaPath := .undefined }
        rfl rfl]
    simp only [List.map_append]
    rfl
  · rw [errorCount_schemaPath, countP_schemaPathErrors_required]
    rfl
  · rw [errorCount_schemaPath, countP_schemaPathErrors_invalid]
    rfl
  · rw [errorShapes, errorShapes, validateConfig_errors_eq, validateConfig_errors_eq,
      dialectErrors_congr { c with outputPath := .str "" } { c with outputPath := .undefined } rfl,
      schemaPathErrors_congr { c with outputPath := .str "" } { c with outputPath := .undefined } rfl,
      basePathErrors_congr { c with outputPath := .str "" } { c with outputPath := .undefined } rfl,
      transactionTimeoutErrors_congr { c with outputPath := .str "" }
        { c with outputPath := .undefined } rfl,
      paginationErrors_congr { c with outputPath := .str "" } { c with outputPath := .undefined } rfl]
    simp only [List.map_append]
    have hconf : pathConflictErrors { c with outputPath := JSVal.str "" } = [] := by
      simp [pathConflictErrors, JSVal.truthy]
    have hconf' : pathConflictErrors { c with outputPath := JSVal.undefined } = [] := by
      simp [pathConflictErrors, JSVal.truthy]
    rw [hconf, hconf']
    rfl
  · rw [errorCount_outputPath, countP_outputPathErrors_required,
      countP_pathConflictErrors_of_ne_conflict _ .required (by simp)]
    rfl
  · rw [errorCount_outputPath, countP_outputPathErrors_invalid,
      countP_pathConflictErrors_of_ne_conflict _ .invalid (by simp)]
    rfl
  · rw [errorShapes, errorShapes, validateConfig_errors_eq, validateConfig_errors_eq,
      dialectErrors_congr { c with basePath := .str "" } { c with basePath := .undefined } rfl,
      schemaPathErrors_congr { c with basePath := .str "" } { c with basePath := .undefined } rfl,
      outputPathErrors_congr { c with basePath := .str "" } { c with basePath := .undefined } rfl,
      transactionTimeoutErrors_congr { c with basePath := .str "" }
        { c with basePath := .undefined } rfl,
      paginationErrors_congr { c with basePath := .str "" } { c with basePath := .undefined } rfl]
    simp only [List.map_append]
    have hconf : pathConflictErrors { c with basePath := JSVal.str "" } = [] := by
      simp [pathConflictErrors, JSVal.truthy]
    have hconf' : pathConflictErrors { c with basePath := JSVal.undefined } = [] := by
      simp [pathConflictErrors, JSVal.truthy]
    rw [hconf, hconf']
    rfl
  · rw [errorCount_basePath, countP_basePathErrors_required]
    rfl
  · rw [errorCount_basePath, countP_basePathErrors_invalid]
    rfl

/-- C5: with transactionTimeout present, a non-number or non-positive
value yields exactly one invalid error and no warning; a positive numeric
value yields no error, one short-timeout performance warning below 1000,
one long-timeout performance warning above 300000, and no warning in
between (boundaries included); at most one warning ever arises; and the
timeout-500 scenario is valid with exactly the short-timeout warning. -/
theorem validateConfig_transactionTimeout_checks (c : RepositoryCodegenConfig)
    (h : c.transactionTimeout ≠ JSVal.undefined) :
    (c.transactionTimeout.isNotPositiveNumber = true →
      errorCount (validateConfig c) "transactionTimeout" .invalid = 1
      ∧ (validateConfig c).warnings = [])
  ∧ (∀ q : ℚ, c.transactionTimeout = .num q → 0 < q →
      errorCount (validateConfig c) "transactionTimeout" .invalid = 0
      ∧ (q < 1000 → (validateConfig c).warnings = [shortTimeoutWarning q])
      ∧ (300000 < q → (validateConfig c).warnings = [longTimeoutWarning q])
      ∧ (1000 ≤ q → q ≤ 300000 → (validateConfig c).warnings = []))
  ∧ (validateConfig c).warnings.length ≤ 1
  ∧ (validateConfig shortTimeoutCandidate).isValid = true
  ∧ (validateConfig shortTimeoutCandidate).warnings = [shortTimeoutWarning 500] := by
  have hcount := (errorCount_transactionTimeout c .invalid).trans
    (countP_transactionTimeoutErrors_invalid c)
  refine ⟨?_, ?_, ?_, by decide, by decide⟩
  · intro hp
    refine ⟨by rw [hcount]; simp [h, hp], ?_⟩
    rw [validateConfig_warnings_eq]
    unfold transactionTimeoutWarnings
    cases hv : c.transactionTimeout with
    | undefined => exact absurd hv h
    | str s => rfl
    | bool b => rfl
    | num q =>
      have hq : q ≤ 0 := by
        rw [hv] at hp
        simpa [JSVal.isNotPositiveNumber] using hp
      simp [hq]
  · intro q hq hpos
    have hnp : ¬q ≤ 0 := not_le.mpr hpos
    refine ⟨by rw [hcount]; simp [hq, JSVal.isNotPositiveNumber, hnp], ?_, ?_, ?_⟩
    · intro hlt
      rw [validateConfig_warnings_eq]
      unfold transactionTimeoutWarnings
      rw [hq]
      simp [hnp, hlt]
    · intro hgt
      have hge : ¬q < 1000 := by linarith
      rw [validateConfig_warnings_eq]
      unfold transactionTimeoutWarnings
      rw [hq]
      simp [hnp, hge, hgt]
    · intro hge hle
      have h₁ : ¬q < 1000 := not_lt.mpr hge
      have h₂ : ¬q > 300000 := not_lt.mpr hle
      rw [validateConfig_warnings_eq]
      unfold transactionTimeoutWarnings
      rw [hq]
      simp [hnp, h₁, h₂]
  · rw [validateConfig_warnings_eq]
    unfold transactionTimeoutWarnings
    cases c.transactionTimeout with
    | undefined => simp
    | str s => simp
    | bool b => simp
    | num q =>
      dsimp only
      split_ifs <;> simp

theorem validateConfig_transactionTimeout_checks_witness :
    shortTimeoutCandidate.transactionTimeout ≠ JSVal.undefined
  ∧ (validateConfig shortTimeoutCandidate).warnings = [shortTimeoutWarning 500] :=
  ⟨by decide,
   ((validateConfig_transactionTimeout_checks shortTimeoutCandidate
      (by decide)).2.1 500 rfl (by norm_num)).2.1 (by norm_num)⟩

theorem JSVal.coalesce_num_coalesce (v : JSVal) (k : ℚ) :
    (v.coalesce (.num k)).coalesce (.num k) = v.coalesce (.num k) := by
  by_cases hv : v = JSVal.undefined <;> simp [JSVal.coalesce, hv]

/-- The required-field precondition under which applyDefaults is called by
the resolver. -/
def RequiredFieldsPresent (c : RepositoryCodegenConfig) : Prop :=
  c.dialect.truthy = true ∧ c.schemaPath.truthy = true ∧
    c.outputPath.truthy = true ∧ c.basePath.truthy = true

instance (c : RepositoryCodegenConfig) : Decidable (RequiredFieldsPresent c) := by
  unfold RequiredFieldsPresent
  infer_instance

/-- C8: applyDefaults is idempotent on configurations satisfying the
required-field precondition. -/
theorem applyDefaults_idempotent (c : RepositoryCodegenConfig)
    (h : RequiredFieldsPresent c) :
    applyDefaults (applyDefaults c) = applyDefaults c := by
  simp [applyDefaults, JSVal.coalesce_num_coalesce]

theorem applyDefaults_idempotent_witness :
    RequiredFieldsPresent examplePgCandidate
  ∧ applyDefaults (applyDefaults examplePgCandidate) = applyDefaults examplePgCandidate :=
  ⟨by decide, applyDefaults_idempotent examplePgCandidate (by decide)⟩

/-- The repository instance configuration built with no overrides. -/
def defaultInstanceConfig : RepositoryInstanceConfig :=
  makeRepositoryInstanceConfig none none none none

theorem SQL_findPaginated_eq_base {α : Type} (config : RepositoryInstanceConfig)
    (findMany : ℚ → ℚ → List α) (count : ℚ) (page limit : Option ℚ) :
    SQLBaseRepository.findPaginated config findMany count page limit =
      BaseRepository.findPaginated config findMany count page limit := rfl

theorem findPaginated_invariant_aux {α : Type} (config : RepositoryInstanceConfig)
    (findMany : ℚ → ℚ → List α) (count : ℚ) (page limit : Option ℚ) :
    1 ≤ (BaseRepository.findPaginated config findMany count page limit).pagination.page
  ∧ ((BaseRepository.findPaginated config findMany count page limit).pagination.hasPrev
        = true ↔
      1 < (BaseRepository.findPaginated config findMany count page limit).pagination.page)
  ∧ ((BaseRepository.findPaginated config findMany count page limit).pagination.hasNext
        = true ↔
      (BaseRepository.findPaginated config findMany count page limit).pagination.page <
        (BaseRepository.findPaginated config findMany count page limit).pagination.totalPages)
  ∧ (1 ≤ config.maxLimit →
      1 ≤ (BaseRepository.findPaginated config findMany count page limit).pagination.limit
      ∧ (BaseRepository.findPaginated config findMany count page limit).pagination.limit ≤
          config.maxLimit) := by
  refine ⟨?_, ?_, ?_, ?_⟩
  · show (1:ℤ) ≤ max 1 ⌊page.getD 1⌋
    exact le_max_left 1 _
  · exact decide_eq_true_iff
  · exact decide_eq_true_iff
  · intro h
    constructor
    · show (1:ℚ) ≤ min config.maxLimit ((max 1 ⌊limit.getD config.defaultLimit⌋ : ℤ) : ℚ)
      refine le_min h ?_
      exact_mod_cast le_max_left (1:ℤ) ⌊limit.getD config.defaultLimit⌋
    · show min config.maxLimit ((max 1 ⌊limit.getD config.defaultLimit⌋ : ℤ) : ℚ) ≤
        config.maxLimit
      exact min_le_left _ _

/-- C3: findPaginated normalizes its inputs: a missing page behaves as
page 1, page 0 behaves as page 1, a missing limit behaves as the
configured default limit, limit 10000 under maxLimit 100 runs with limit
100, and the data fetch receives the clamped limit together with offset
(clamped page - 1) * clamped limit. -/
theorem findPaginated_input_normalization {α : Type} (config : RepositoryInstanceConfig)
    (findMany : ℚ → ℚ → List α) (count : ℚ) (page limit : Option ℚ) :
    BaseRepository.findPaginated config findMany count none limit =
        BaseRepository.findPaginated config findMany count (some 1) limit
  ∧ BaseRepository.findPaginated config findMany count (some 0) limit =
        BaseRepository.findPaginated config findMany count (some 1) limit
  ∧ BaseRepository.findPaginated config findMany count page none =
        BaseRepository.findPaginated config findMany count page (some config.defaultLimit)
  ∧ (config.maxLimit = 100 →
      (BaseRepository.findPaginated config findMany count page
          (some 10000)).pagination.limit = 100
      ∧ BaseRepository.findPaginated config findMany count page (some 10000) =
          BaseRepository.findPaginated config findMany count page (some 100))
  ∧ (BaseRepository.findPaginated config findMany count page limit).data =
      findMany
        (BaseRepository.findPaginated config findMany count page limit).pagination.limit
        ((((BaseRepository.findPaginated config findMany count page
            limit).pagination.page : ℚ) - 1) *
          (BaseRepository.findPaginated config findMany count page limit).pagination.limit) := by
  refine ⟨rfl, ?_, rfl, ?_, rfl⟩
  · simp [BaseRepository.findPaginated]
  · intro h
    constructor
    · show min config.maxLimit ((max 1 ⌊(10000:ℚ)⌋ : ℤ) : ℚ) = 100
      rw [h]
      norm_num
    · simp [BaseRepository.findPaginated, h]
      norm_num

theorem findPaginated_input_normalization_witness :
    defaultInstanceConfig.maxLimit = 100
  ∧ (BaseRepository.findPaginated defaultInstanceConfig (fun l o => ([] : List Unit)) 0
      none (some 10000)).pagination.limit = 100 :=
  ⟨rfl,
   ((findPaginated_input_normalization defaultInstanceConfig (fun l o => ([] : List Unit)) 0
      none (some 10000)).2.2.2.1 rfl).1⟩

/-- C4: the returned totalPages is the ceiling of the total row count over
the clamped limit, and with zero rows at requested page 1 and limit 20 the
result has totalPages 0, hasNext false, hasPrev false and no data. -/
theorem findPaginated_totalPages_ceil {α : Type} (config : RepositoryInstanceConfig)
    (findMany : ℚ → ℚ → List α) (count : ℚ) (page limit : Option ℚ)
    (h : 1 ≤ config.maxLimit) :
    ((BaseRepository.findPaginated config findMany count page limit).pagination.totalPages =
      ⌈count /
        (BaseRepository.findPaginated config findMany count page limit).pagination.limit⌉)
  ∧ (∀ g : ℚ → ℚ → List α, (∀ l o, g l o = []) →
      (BaseRepository.findPaginated config g 0 (some 1) (some 20)).pagination.totalPages = 0
      ∧ (BaseRepository.findPaginated config g 0 (some 1) (some 20)).pagination.hasNext = false
      ∧ (BaseRepository.findPaginated config g 0 (some 1) (some 20)).pagination.hasPrev = false
      ∧ (BaseRepository.findPaginated config g 0 (some 1) (some 20)).data = []) := by
  refine ⟨rfl, ?_⟩
  intro g hg
  refine ⟨?_, ?_, ?_, hg _ _⟩
  · simp [BaseRepository.findPaginated]
  · simp [BaseRepository.findPaginated]
  · simp [BaseRepository.findPaginated]

theorem findPaginated_totalPages_ceil_witness :
    (1 : ℚ) ≤ defaultInstanceConfig.maxLimit
  ∧ (BaseRepository.findPaginated defaultInstanceConfig (fun l o => ([] : List Unit)) 0
      (some 1) (some 20)).pagination.totalPages = 0 :=
  ⟨by norm_num [defaultInstanceConfig, makeRepositoryInstanceConfig],
   ((findPaginated_totalPages_ceil defaultInstanceConfig (fun l o => ([] : List Unit)) 0
      (some 1) (some 20)
      (by norm_num [defaultInstanceConfig, makeRepositoryInstanceConfig])).2
      (fun l o => []) (fun l o => rfl)).1⟩

/-- C10: every pagination result of either findPaginated variant has
page at least 1, hasPrev exactly when page exceeds 1, hasNext exactly when
page is below totalPages, and (when the configured maxLimit is at least 1)
a limit inside [1, maxLimit]. -/
theorem findPaginated_result_invariants {α : Type} (config : RepositoryInstanceConfig)
    (findMany : ℚ → ℚ → List α) (count : ℚ) (page limit : Option ℚ) :
    (1 ≤ (BaseRepository.findPaginated config findMany count page limit).pagination.page
     ∧ ((BaseRepository.findPaginated config findMany count page limit).pagination.hasPrev
           = true ↔
         1 < (BaseRepository.findPaginated config findMany count page limit).pagination.page)
     ∧ ((BaseRepository.findPaginated config findMany count page limit).pagination.hasNext
           = true ↔
         (BaseRepository.findPaginated config findMany count page limit).pagination.page <
           (BaseRepository.findPaginated config findMany count page
             limit).pagination.totalPages)
     ∧ (1 ≤ config.maxLimit →
         1 ≤ (BaseRepository.findPaginated config findMany count page limit).pagination.limit
         ∧ (BaseRepository.findPaginated config findMany count page limit).pagination.limit ≤
             config.maxLimit))
  ∧ (1 ≤ (SQLBaseRepository.findPaginated config findMany count page limit).pagination.page
     ∧ ((SQLBaseRepository.findPaginated config findMany count page limit).pagination.hasPrev
           = true ↔
         1 < (SQLBaseRepository.findPaginated config findMany count page
            limit).pagination.page)
     ∧ ((SQLBaseRepository.findPaginated config findMany count page limit).pagination.hasNext
           = true ↔
         (SQLBaseRepository.findPaginated config findMany count page limit).pagination.page <
           (SQLBaseRepository.findPaginated config findMany count page
             limit).pagination.totalPages)
     ∧ (1 ≤ config.maxLimit →
         1 ≤ (SQLBaseRepository.findPaginated config findMany count page
            limit).pagination.limit
         ∧ (SQLBaseRepository.findPaginated config findMany count page
             limit).pagination.limit ≤ config.maxLimit)) := by
  refine ⟨findPaginated_invariant_aux config findMany count page limit, ?_⟩
  rw [SQL_findPaginated_eq_base]
  exact findPaginated_invariant_aux config findMany count page limit

theorem findPaginated_result_invariants_witness :
    (1 : ℚ) ≤ defaultInstanceConfig.maxLimit
  ∧ 1 ≤ (BaseRepository.findPaginated defaultInstanceConfig (fun l o => ([] : List Unit)) 0
      none none).pagination.limit :=
  ⟨by norm_num [defaultInstanceConfig, makeRepositoryInstanceConfig],
   ((findPaginated_result_invariants defaultInstanceConfig (fun l o => ([] : List Unit)) 0
      none none).1.2.2.2
      (by norm_num [defaultInstanceConfig, makeRepositoryInstanceConfig])).1⟩

end DrizzleRepositories
